import Mathlib

/-!
Shallow embedding of the nextgen-kernels-api kernel client subsystem:
the kernel client registry (kernel_client_registry.py), the kernel manager
lifecycle glue (kernelmanager.py) and the gateway channel monitor
(gateway/managers.py), together with theorems settling the frozen claims.
-/

/-- A kernel client class, treated as an opaque kind. Named constructors
cover the classes appearing in the sources; other covers the rest. -/
inductive ClientKind where
  | kernelClient
  | jupyterServerKernelClient
  | gatewayKernelClient
  | clientA
  | clientB
  | other (n : Nat)
deriving DecidableEq, Repr

/-- A provisioner instance: the tag of its exact runtime type together with
the tags of all types T for which the Python test isinstance(instance, T)
holds (the method resolution order of its type, the type itself included). -/
structure Provisioner where
  ty : Nat
  superTypes : List Nat
deriving DecidableEq, Repr

/-- The Python isinstance test against a registered provisioner class. -/
def isinstanceOf (p : Provisioner) (t : Nat) : Bool :=
  p.superTypes.contains t

/-- The registry mapping, a Python dict from provisioner classes to client
classes: an insertion-ordered association list whose keys are unique. -/
abbrev Registry := List (Nat × ClientKind)

/-- Keys of the registry are pairwise distinct, as in a Python dict. -/
def uniqueKeys (reg : Registry) : Prop :=
  (reg.map Prod.fst).Nodup

instance : DecidablePred uniqueKeys := fun reg =>
  inferInstanceAs (Decidable ((reg.map Prod.fst).Nodup))

/-- Embedding of KernelClientRegistry.register: a Python dict upsert. An
existing key keeps its position in iteration order and receives the new
value; a new key is appended at the end. -/
def register (reg : Registry) (p : Nat) (c : ClientKind) : Registry :=
  if reg.any (fun e => e.1 == p) then
    reg.map (fun e => if e.1 == p then (p, c) else e)
  else
    reg ++ [(p, c)]

/-- Embedding of KernelClientRegistry.get_client_for_provisioner: exact type
match first, then the first registration in iteration order whose class the
instance is an isinstance of, then the configured fallback; a missing
provisioner returns the fallback at once. -/
def get_client_for_provisioner (reg : Registry) (fallback_client : ClientKind)
    (provisioner : Option Provisioner) : ClientKind :=
  match provisioner with
  | none => fallback_client
  | some p =>
    match reg.find? (fun e => e.1 == p.ty) with
    | some e => e.2
    | none =>
      match reg.find? (fun e => isinstanceOf p e.1) with
      | some e => e.2
      | none => fallback_client

/-- Default value of the fallback_client_class trait in the source, line 43:
JupyterServerKernelClient. -/
def fallback_client_class_default : ClientKind :=
  ClientKind.jupyterServerKernelClient

lemma find?_of_prefix_miss {α} (f : α → Bool) (pre : List α) (e : α)
    (post : List α) (hpre : ∀ x ∈ pre, f x = false) (he : f e = true) :
    (pre ++ e :: post).find? f = some e := by
  induction pre with
  | nil => simp [List.find?_cons, he]
  | cons a l ih =>
    have ha : f a = false := hpre a (by simp)
    have hrest : ∀ x ∈ l, f x = false := fun x hx => hpre x (by simp [hx])
    simpa [List.find?_cons, ha] using ih hrest

lemma find?_exact_of_mem (reg : Registry) (p : Nat) (c : ClientKind)
    (hu : uniqueKeys reg) (h : (p, c) ∈ reg) :
    reg.find? (fun e => e.1 == p) = some (p, c) := by
  induction reg with
  | nil => cases h
  | cons a l ih =>
    have hu' := hu
    simp only [uniqueKeys, List.map_cons, List.nodup_cons] at hu'
    rcases List.mem_cons.mp h with heq | hmem
    · cases heq
      simp [List.find?_cons]
    · have hk : a.1 ≠ p := by
        intro hk
        exact hu'.1 (hk ▸ List.mem_map_of_mem Prod.fst hmem)
      have hk2 : (a.1 == p) = false := by simpa using hk
      simpa [List.find?_cons, hk2] using ih hu'.2 hmem

lemma find?_exact_none (reg : Registry) (p : Nat)
    (h : ∀ c, (p, c) ∉ reg) :
    reg.find? (fun e => e.1 == p) = none := by
  rw [List.find?_eq_none]
  rintro ⟨x1, x2⟩ hx hfx
  have hx1 : x1 = p := by simpa using hfx
  subst hx1
  exact h x2 hx

lemma get_client_some (reg : Registry) (fb : ClientKind) (p : Provisioner) :
    get_client_for_provisioner reg fb (some p) =
      match reg.find? (fun e => e.1 == p.ty) with
      | some e => e.2
      | none =>
        match reg.find? (fun e => isinstanceOf p e.1) with
        | some e => e.2
        | none => fb := rfl

lemma get_client_none (reg : Registry) (fb : ClientKind) :
    get_client_for_provisioner reg fb none = fb := rfl

lemma get_client_exact (reg : Registry) (fb : ClientKind)
    (p : Provisioner) (c : ClientKind) (hu : uniqueKeys reg)
    (h : (p.ty, c) ∈ reg) :
    get_client_for_provisioner reg fb (some p) = c := by
  rw [get_client_some, find?_exact_of_mem reg p.ty c hu h]

lemma get_client_ancestor (reg : Registry) (fb : ClientKind)
    (p : Provisioner) (pre : Registry) (e : Nat × ClientKind) (post : Registry)
    (hnone : ∀ c, (p.ty, c) ∉ reg)
    (hsplit : reg = pre ++ e :: post)
    (hhit : isinstanceOf p e.1 = true)
    (hmiss : ∀ x ∈ pre, isinstanceOf p x.1 = false) :
    get_client_for_provisioner reg fb (some p) = e.2 := by
  rw [get_client_some, find?_exact_none reg p.ty hnone, hsplit,
    find?_of_prefix_miss (fun x => isinstanceOf p x.1) pre e post hmiss hhit]

lemma get_client_fallback (reg : Registry) (fb : ClientKind)
    (p : Provisioner)
    (hnone : ∀ c, (p.ty, c) ∉ reg)
    (hnomatch : ∀ x ∈ reg, isinstanceOf p x.1 = false) :
    get_client_for_provisioner reg fb (some p) = fb := by
  rw [get_client_some, find?_exact_none reg p.ty hnone]
  have hfa : reg.find? (fun e => isinstanceOf p e.1) = none := by
    rw [List.find?_eq_none]
    intro x hx hfx
    exact absurd hfx (by simp [hnomatch x hx])
  rw [hfa]

/-- C1: get_client_for_provisioner resolves in order: exact registration for
the instance type wins; otherwise the first-registered entry whose class the
instance is an instance of wins; otherwise the configured fallback is
returned. The operation is total: a missing provisioner, and a provisioner
with no matching registration, both yield the fallback, and a missing
provisioner yields it for every registry content. -/
theorem get_client_for_provisioner_resolution_order
    (reg : Registry) (fb : ClientKind) (hu : uniqueKeys reg) :
    (get_client_for_provisioner reg fb none = fb)
    ∧ (∀ p c, (p.ty, c) ∈ reg →
        get_client_for_provisioner reg fb (some p) = c)
    ∧ (∀ p pre e post, (∀ c, (p.ty, c) ∉ reg) →
        reg = pre ++ e :: post →
        isinstanceOf p e.1 = true →
        (∀ x ∈ pre, isinstanceOf p x.1 = false) →
        get_client_for_provisioner reg fb (some p) = e.2)
    ∧ (∀ p, (∀ c, (p.ty, c) ∉ reg) →
        (∀ x ∈ reg, isinstanceOf p x.1 = false) →
        get_client_for_provisioner reg fb (some p) = fb) := by
  refine ⟨get_client_none reg fb, ?_, ?_, ?_⟩
  · exact fun p c h => get_client_exact reg fb p c hu h
  · exact fun p pre e post hn hs hh hm =>
      get_client_ancestor reg fb p pre e post hn hs hh hm
  · exact fun p hn hm => get_client_fallback reg fb p hn hm

theorem get_client_resolution_order_witness :
    uniqueKeys [(0, ClientKind.clientA), (1, ClientKind.clientB)]
    ∧ get_client_for_provisioner [(0, ClientKind.clientA), (1, ClientKind.clientB)]
        ClientKind.kernelClient (some ⟨0, [0]⟩) = ClientKind.clientA := by
  refine ⟨by decide, ?_⟩
  exact (get_client_for_provisioner_resolution_order
    [(0, ClientKind.clientA), (1, ClientKind.clientB)]
    ClientKind.kernelClient (by decide)).2.1 ⟨0, [0]⟩ ClientKind.clientA (by decide)

/-- C3: lookup is deterministic: an exact registration fixes the result, and
with no exact registration the earliest-registered entry among the matching
ancestors decides the result. -/
theorem get_client_for_provisioner_deterministic
    (reg : Registry) (fb : ClientKind) (hu : uniqueKeys reg) :
    (∀ p c, (p.ty, c) ∈ reg →
        get_client_for_provisioner reg fb (some p) = c)
    ∧ (∀ p pre e post, (∀ c, (p.ty, c) ∉ reg) →
        reg = pre ++ e :: post →
        isinstanceOf p e.1 = true →
        (∀ x ∈ pre, isinstanceOf p x.1 = false) →
        get_client_for_provisioner reg fb (some p) = e.2) := by
  refine ⟨fun p c h => get_client_exact reg fb p c hu h, ?_⟩
  exact fun p pre e post hn hs hh hm =>
    get_client_ancestor reg fb p pre e post hn hs hh hm

theorem get_client_deterministic_witness :
    uniqueKeys [(10, ClientKind.clientA), (11, ClientKind.clientB)]
    ∧ get_client_for_provisioner [(10, ClientKind.clientA), (11, ClientKind.clientB)]
        ClientKind.kernelClient (some ⟨12, [12, 10, 11]⟩) = ClientKind.clientA := by
  refine ⟨by decide, ?_⟩
  exact (get_client_for_provisioner_deterministic
    [(10, ClientKind.clientA), (11, ClientKind.clientB)]
    ClientKind.kernelClient (by decide)).2 ⟨12, [12, 10, 11]⟩
    [] (10, ClientKind.clientA) [(11, ClientKind.clientB)]
    (by intro c hmem; simp at hmem) rfl (by decide) (by intro x hx; cases hx)

lemma register_map_upd (reg : Registry) (p : Nat) (c c2 : ClientKind) :
    (reg.map (fun e => if e.1 == p then (p, c) else e)).map
        (fun e => if e.1 == p then (p, c2) else e)
      = reg.map (fun e => if e.1 == p then (p, c2) else e) := by
  rw [List.map_map]
  apply List.map_congr_left
  intro e _
  by_cases hk : e.1 = p
  · simp [Function.comp, hk]
  · simp [Function.comp, hk]

lemma register_map_id (reg : Registry) (p : Nat) (c : ClientKind)
    (h : reg.any (fun e => e.1 == p) = false) :
    reg.map (fun e => if e.1 == p then (p, c) else e) = reg := by
  induction reg with
  | nil => rfl
  | cons a l ih =>
    simp only [List.any_cons, Bool.or_eq_false_iff] at h
    simp only [List.map_cons, h.1, ih h.2]
    simp

lemma find?_map_upd (reg : Registry) (p : Nat) (c : ClientKind)
    (h : reg.any (fun e => e.1 == p) = true) :
    (reg.map (fun e => if e.1 == p then (p, c) else e)).find?
        (fun e => e.1 == p) = some (p, c) := by
  induction reg with
  | nil => cases h
  | cons a l ih =>
    by_cases hk : a.1 = p
    · simp [List.find?_cons, hk]
    · have hk2 : (a.1 == p) = false := by simpa using hk
      have hl : l.any (fun e => e.1 == p) = true := by
        simpa [List.any_cons, hk2] using h
      have hupd : (if a.1 == p then (p, c) else a) = a := by simp [hk2]
      rw [List.map_cons, hupd, List.find?_cons_of_neg _ (by simp [hk2])]
      exact ih hl

/-- C9: register is an unconditional upsert: repeating the identical call
leaves the registry unchanged, a later call for the same key overwrites the
earlier one, and after register the exact lookup for the key yields the
freshly stored client kind. -/
theorem register_idempotent_last_write_wins
    (reg : Registry) (p : Nat) (c c2 : ClientKind) :
    register (register reg p c) p c = register reg p c
    ∧ register (register reg p c) p c2 = register reg p c2
    ∧ (register reg p c).find? (fun e => e.1 == p) = some (p, c) := by
  have hlast : ∀ d : ClientKind,
      register (register reg p c) p d = register reg p d := by
    intro d
    by_cases h : reg.any (fun e => e.1 == p) = true
    · have h1 : register reg p c
          = reg.map (fun e => if e.1 == p then (p, c) else e) := by
        unfold register; rw [if_pos h]
      have hany2 : (reg.map (fun e => if e.1 == p then (p, c) else e)).any
          (fun e => e.1 == p) = true := by
        rw [List.any_eq_true] at h ⊢
        obtain ⟨x, hx, hfx⟩ := h
        exact ⟨(p, c), List.mem_map.mpr ⟨x, hx, by simp [show (x.1 == p) = true from hfx]⟩, by simp⟩
      have h2 : register (register reg p c) p d
          = (reg.map (fun e => if e.1 == p then (p, c) else e)).map
              (fun e => if e.1 == p then (p, d) else e) := by
        rw [h1]; unfold register; rw [if_pos hany2]
      have h3 : register reg p d
          = reg.map (fun e => if e.1 == p then (p, d) else e) := by
        unfold register; rw [if_pos h]
      rw [h2, h3, register_map_upd]
    · have h' : reg.any (fun e => e.1 == p) = false := Bool.eq_false_iff.mpr h
      have h1 : register reg p c = reg ++ [(p, c)] := by
        unfold register; rw [h']; simp
      have hany2 : (reg ++ [(p, c)]).any (fun e => e.1 == p) = true := by
        simp [List.any_append]
      have h2 : register (register reg p c) p d
          = (reg ++ [(p, c)]).map (fun e => if e.1 == p then (p, d) else e) := by
        rw [h1]; unfold register; rw [if_pos hany2]
      have h3 : register reg p d = reg ++ [(p, d)] := by
        unfold register; rw [h']; simp
      rw [h2, h3, List.map_append, register_map_id reg p d h']
      simp
  refine ⟨hlast c, hlast c2, ?_⟩
  by_cases h : reg.any (fun e => e.1 == p) = true
  · have h1 : register reg p c
        = reg.map (fun e => if e.1 == p then (p, c) else e) := by
      unfold register; rw [if_pos h]
    rw [h1, find?_map_upd reg p c h]
  · have h' : reg.any (fun e => e.1 == p) = false := Bool.eq_false_iff.mpr h
    have h1 : register reg p c = reg ++ [(p, c)] := by
      unfold register; rw [h']; simp
    have hmiss : ∀ x ∈ reg, (x.1 == p) = false := by
      intro x hx
      have := List.any_eq_false.mp h' x hx
      simpa using this
    rw [h1]
    exact find?_of_prefix_miss (fun e => e.1 == p) reg (p, c) [] hmiss (by simp)

/-- Scenario registry for C4: register ProvisionerA (tag 0) with ClientA and
ProvisionerB (tag 1) with ClientB, starting from an empty registry. -/
def regAB : Registry :=
  register (register [] 0 ClientKind.clientA) 1 ClientKind.clientB

/-- Instance of ProvisionerC (tag 2) extending ProvisionerA (tag 0); tag 100
stands for the unregistered common base KernelProvisionerBase. -/
def provC : Provisioner := ⟨2, [2, 0, 100]⟩

/-- Instance of the unregistered ProvisionerD (tag 3). -/
def provD : Provisioner := ⟨3, [3, 100]⟩

/-- C4, evaluated on the embedded code: the ancestor lookup for ProvisionerC
yields ClientA as claimed, and the lookup for the unregistered ProvisionerD
yields the configured fallback; but with no fallback configured the trait
default is JupyterServerKernelClient, not the base KernelClient that the
docstrings and the test suite of the source expect. -/
theorem scenario_lookup_default_fallback_eval :
    get_client_for_provisioner regAB fallback_client_class_default
        (some provC) = ClientKind.clientA
    ∧ get_client_for_provisioner regAB fallback_client_class_default
        (some provD) = fallback_client_class_default
    ∧ fallback_client_class_default = ClientKind.jupyterServerKernelClient
    ∧ fallback_client_class_default ≠ ClientKind.kernelClient := by
  refine ⟨by decide, by decide, rfl, by decide⟩

/-- Split of a character list at the LAST occurrence of sep, as in the
Python call s.rsplit(sep, 1); none when sep does not occur. -/
def rsplitChars (sep : Char) : List Char → Option (List Char × List Char)
  | [] => none
  | c :: rest =>
    match rsplitChars sep rest with
    | some (pre, post) => some (c :: pre, post)
    | none => if c == sep then some ([], rest) else none

/-- Embedding of str.rsplit(sep, 1) restricted to one split. -/
def rsplit1 (sep : Char) (s : String) : Option (String × String) :=
  (rsplitChars sep s.data).map (fun pr => (String.mk pr.1, String.mk pr.2))

/-- Parse of a class reference as in the source: when the reference holds a
colon, split at the last colon, otherwise at the last dot; none models the
ValueError raised by tuple unpacking when neither separator occurs. -/
def splitRef (ref : String) : Option (String × String) :=
  if ref.data.contains ':' then rsplit1 ':' ref else rsplit1 '.' ref

/-- Errors raised by the dynamic-load steps of the source: ImportError from
importlib.import_module carries the module reference, AttributeError from
getattr carries module and attribute, ValueError models failed unpacking of
a reference with no separator. -/
inductive PyError where
  | importError (module : String)
  | attributeError (module : String) (attr : String)
  | valueError
deriving DecidableEq, Repr

/-- Lookup in a string-keyed association table. -/
def lookupA {α : Type} (l : List (String × α)) (k : String) : Option α :=
  (l.find? (fun e => e.1 == k)).map Prod.snd

/-- The importable world, modelled as finite module tables: a provisioner
module maps attribute names to provisioner class tags, a client module maps
attribute names to client classes. -/
structure PyEnv where
  provModules : List (String × List (String × Nat))
  clientModules : List (String × List (String × ClientKind))

/-- Resolution of a provisioner class reference: parse, import the module,
take the attribute, as in the source lines 125-131. -/
def resolveProvisionerClass (env : PyEnv) (ref : String) : Except PyError Nat :=
  match splitRef ref with
  | none => Except.error PyError.valueError
  | some (m, name) =>
    match lookupA env.provModules m with
    | none => Except.error (PyError.importError m)
    | some attrs =>
      match lookupA attrs name with
      | none => Except.error (PyError.attributeError m name)
      | some t => Except.ok t

/-- Resolution of a client class reference, as in the source lines 134-140. -/
def resolveClientClass (env : PyEnv) (ref : String) : Except PyError ClientKind :=
  match splitRef ref with
  | none => Except.error PyError.valueError
  | some (m, name) =>
    match lookupA env.clientModules m with
    | none => Except.error (PyError.importError m)
    | some attrs =>
      match lookupA attrs name with
      | none => Except.error (PyError.attributeError m name)
      | some c => Except.ok c

/-- Embedding of KernelClientRegistry.register_from_string: resolve the
provisioner reference, then the client reference, then register; the except
clause of the source logs a resolution failure and re-raises it unchanged,
so failures propagate to the caller as is. -/
def register_from_string (env : PyEnv) (reg : Registry)
    (provisioner_class_name client_class_name : String) :
    Except PyError Registry :=
  match resolveProvisionerClass env provisioner_class_name with
  | Except.error e => Except.error e
  | Except.ok p =>
    match resolveClientClass env client_class_name with
    | Except.error e => Except.error e
    | Except.ok c => Except.ok (register reg p c)

/-- C8: register_from_string with two resolvable references registers the
resolved pair through register; when either reference fails to resolve the
error propagates to the caller and carries the module (and attribute) of
precisely the reference that failed. -/
theorem register_from_string_resolution (env : PyEnv) (reg : Registry)
    (pr cr : String) :
    (∀ p c, resolveProvisionerClass env pr = Except.ok p →
        resolveClientClass env cr = Except.ok c →
        register_from_string env reg pr cr = Except.ok (register reg p c))
    ∧ (∀ e, resolveProvisionerClass env pr = Except.error e →
        register_from_string env reg pr cr = Except.error e)
    ∧ (∀ p e, resolveProvisionerClass env pr = Except.ok p →
        resolveClientClass env cr = Except.error e →
        register_from_string env reg pr cr = Except.error e)
    ∧ (∀ m name, splitRef pr = some (m, name) →
        lookupA env.provModules m = none →
        register_from_string env reg pr cr
          = Except.error (PyError.importError m))
    ∧ (∀ m name p, resolveProvisionerClass env pr = Except.ok p →
        splitRef cr = some (m, name) →
        lookupA env.clientModules m = none →
        register_from_string env reg pr cr
          = Except.error (PyError.importError m)) := by
  refine ⟨?_, ?_, ?_, ?_, ?_⟩
  · intro p c hp hc
    unfold register_from_string
    rw [hp, hc]
  · intro e he
    unfold register_from_string
    rw [he]
  · intro p e hp he
    unfold register_from_string
    rw [hp, he]
  · intro m name hsplit hmod
    have he : resolveProvisionerClass env pr
        = Except.error (PyError.importError m) := by
      unfold resolveProvisionerClass
      rw [hsplit]
      dsimp only
      rw [hmod]
    unfold register_from_string
    rw [he]
  · intro m name p hp hsplit hmod
    have he : resolveClientClass env cr
        = Except.error (PyError.importError m) := by
      unfold resolveClientClass
      rw [hsplit]
      dsimp only
      rw [hmod]
    unfold register_from_string
    rw [hp, he]

theorem register_from_string_resolution_witness :
    resolveProvisionerClass
        ⟨[("provmod", [("ProvA", 0)])], [("climod", [("ClientA", ClientKind.clientA)])]⟩
        "provmod:ProvA" = Except.ok 0
    ∧ resolveClientClass
        ⟨[("provmod", [("ProvA", 0)])], [("climod", [("ClientA", ClientKind.clientA)])]⟩
        "climod.ClientA" = Except.ok ClientKind.clientA
    ∧ register_from_string
        ⟨[("provmod", [("ProvA", 0)])], [("climod", [("ClientA", ClientKind.clientA)])]⟩
        [] "provmod:ProvA" "climod.ClientA"
        = Except.ok [(0, ClientKind.clientA)] := by
  refine ⟨rfl, rfl, ?_⟩
  have h := (register_from_string_resolution
    ⟨[("provmod", [("ProvA", 0)])], [("climod", [("ClientA", ClientKind.clientA)])]⟩
    [] "provmod:ProvA" "climod.ClientA").1 0 ClientKind.clientA rfl rfl
  simpa using h

/-- An entry point of the jupyter_kernel_client_registry group: the name is
the provisioner class reference, load gives the referenced client class or
the exception that entry_point.load() raises. -/
structure EntryPoint where
  name : String
  load : Except PyError ClientKind

/-- Processing of one entry point inside the per-entry try of the source:
entry_point.load() first, then parse of the name and import plus getattr of
the provisioner class; any failure is caught, logged and skipped (none). -/
def processEntryPoint (env : PyEnv) (ep : EntryPoint) :
    Option (Nat × ClientKind) :=
  match ep.load with
  | Except.error _ => none
  | Except.ok c =>
    match resolveProvisionerClass env ep.name with
    | Except.error _ => none
    | Except.ok p => some (p, c)

/-- Embedding of KernelClientRegistry.auto_discover_registrations over the
entry points the discovery mechanism reports: an empty collection returns at
once; otherwise each entry is processed in order, a successful one is
registered and a failed one is skipped. -/
def auto_discover_registrations (env : PyEnv) (eps : List EntryPoint)
    (reg : Registry) : Registry :=
  match eps with
  | [] => reg
  | _ =>
    eps.foldl (fun r ep =>
      match processEntryPoint env ep with
      | some pc => register r pc.1 pc.2
      | none => r) reg

lemma auto_discover_eq_foldl (env : PyEnv) (eps : List EntryPoint)
    (reg : Registry) :
    auto_discover_registrations env eps reg
      = eps.foldl (fun r ep =>
          match processEntryPoint env ep with
          | some pc => register r pc.1 pc.2
          | none => r) reg := by
  cases eps with
  | nil => rfl
  | cons a l => rfl

/-- C7: discovery over zero entries leaves the registry unchanged, and an
entry that fails to load or resolve is skipped without disturbing the
processing of the entries around it: the run equals the run on the list
with the failing entry removed, so every other valid entry still lands in
the registry. -/
theorem auto_discover_skips_failed_entries (env : PyEnv) (reg : Registry)
    (pre post : List EntryPoint) (bad : EntryPoint)
    (hbad : processEntryPoint env bad = none) :
    auto_discover_registrations env [] reg = reg
    ∧ auto_discover_registrations env (pre ++ bad :: post) reg
        = auto_discover_registrations env (pre ++ post) reg := by
  refine ⟨rfl, ?_⟩
  rw [auto_discover_eq_foldl, auto_discover_eq_foldl,
    List.foldl_append, List.foldl_append, List.foldl_cons, hbad]

/-- Concrete discovery run for the C7 witness: one entry that resolves and
one whose load raises. -/
def epEnv : PyEnv :=
  ⟨[("provmod", [("ProvA", 0)])], [("climod", [("ClientA", ClientKind.clientA)])]⟩

def epGood : EntryPoint := ⟨"provmod:ProvA", Except.ok ClientKind.clientA⟩

def epBad : EntryPoint :=
  ⟨"bad:Provisioner", Except.error (PyError.importError "bad")⟩

theorem auto_discover_skips_failed_entries_witness :
    processEntryPoint epEnv epBad = none
    ∧ auto_discover_registrations epEnv [epGood, epBad] []
        = auto_discover_registrations epEnv [epGood] []
    ∧ auto_discover_registrations epEnv [epGood, epBad] []
        = [(0, ClientKind.clientA)] := by
  refine ⟨rfl, ?_, rfl⟩
  have h := (auto_discover_skips_failed_entries epEnv [] [epGood] [] epBad rfl).2
  simpa using h

/-- Outcome of the post-start connect sequence shared verbatim by
KernelManager._async_post_start_kernel and
GatewayKernelManager.post_start_kernel: raised carries an exception from
load_connection_info or connect that the except clause logs and re-raises,
connectReturnedFalse is the RuntimeError raised when connect returns False
(itself re-raised by the same except clause). -/
inductive StartFailure where
  | raised (msg : String)
  | connectReturnedFalse
deriving DecidableEq, Repr

/-- Embedding of the try block of the two post-start hooks: load the
connection info (which may raise), connect (which may raise or return a
success flag), raise RuntimeError on a False flag; every exception escapes
to the caller. -/
def post_start_kernel_connect (load_connection_info : Except String Unit)
    (connect : Except String Bool) : Except StartFailure Unit :=
  match load_connection_info with
  | Except.error e => Except.error (StartFailure.raised e)
  | Except.ok _ =>
    match connect with
    | Except.error e => Except.error (StartFailure.raised e)
    | Except.ok success =>
      if success then Except.ok () else Except.error StartFailure.connectReturnedFalse

/-- C5: a connect failure is fatal to the start and propagates: an
unsuccessful connect return makes the hook raise, an exception from loading
connection info or from connecting is re-raised unchanged, and the hook
succeeds exactly when loading succeeds and connect returns True. -/
theorem post_start_kernel_connect_failure_fatal :
    (∀ l : Except String Unit, ∃ f,
        post_start_kernel_connect l (Except.ok false) = Except.error f)
    ∧ (∀ (e : String) (c : Except String Bool),
        post_start_kernel_connect (Except.error e) c
          = Except.error (StartFailure.raised e))
    ∧ (∀ e : String,
        post_start_kernel_connect (Except.ok ()) (Except.error e)
          = Except.error (StartFailure.raised e))
    ∧ (∀ (l : Except String Unit) (c : Except String Bool),
        post_start_kernel_connect l c = Except.ok ()
          ↔ l = Except.ok () ∧ c = Except.ok true) := by
  refine ⟨?_, ?_, ?_, ?_⟩
  · intro l
    cases l with
    | error e => exact ⟨StartFailure.raised e, rfl⟩
    | ok u => cases u; exact ⟨StartFailure.connectReturnedFalse, rfl⟩
  · intro e c; rfl
  · intro e; rfl
  · intro l c
    constructor
    · intro h
      cases l with
      | error e => simp [post_start_kernel_connect] at h
      | ok u =>
        cases u
        cases c with
        | error e => simp [post_start_kernel_connect] at h
        | ok b =>
          cases b with
          | false => simp [post_start_kernel_connect] at h
          | true => exact ⟨rfl, rfl⟩
    · rintro ⟨hl, hc⟩
      rw [hl, hc]
      rfl

theorem post_start_kernel_connect_failure_fatal_witness :
    post_start_kernel_connect (Except.ok ()) (Except.ok false)
        = Except.error StartFailure.connectReturnedFalse
    ∧ (post_start_kernel_connect (Except.ok ()) (Except.ok true) = Except.ok ()
        ↔ Except.ok () = (Except.ok () : Except String Unit)
          ∧ Except.ok true = (Except.ok true : Except String Bool)) := by
  refine ⟨rfl, ?_⟩
  exact (post_start_kernel_connect_failure_fatal).2.2.2 (Except.ok ()) (Except.ok true)

/-- State of the kernel client that cleanup touches: the two per-channel
last-status timestamps assigned in the manager source, plus the listening
and channel flags whose transitions stop_listening and stop_channels drive. -/
structure KernelClientState where
  last_shell_status_time : Option Nat
  last_control_status_time : Option Nat
  listening : Bool
  channels_open : Bool
deriving DecidableEq, Repr

/-- Modelled from the spec: stop_listening of the kernel client (client.py is
not among the sources); section 4.2: cancellation of all monitoring loops is
requested and awaited, so no loop is left running. -/
def stop_listening (c : KernelClientState) : KernelClientState :=
  { c with listening := false }

/-- Modelled from the spec: stop_channels of the kernel client (client.py is
not among the sources); section 4.2: closes all transport-level channel
handles. -/
def stop_channels (c : KernelClientState) : KernelClientState :=
  { c with channels_open := false }

/-- Embedding of KernelManager.cleanup_resources and of the identical
GatewayKernelManager.cleanup_resources: with a restart the two timestamps
are assigned None and then listening stops and channels close; without a
restart only listening stops and channels close; a manager without a client
does nothing; the client object is kept in both branches. -/
def cleanup_resources (kernel_client : Option KernelClientState)
    (restart : Bool) : Option KernelClientState :=
  match kernel_client with
  | none => none
  | some c =>
    if restart then
      some (stop_channels (stop_listening
        { c with last_shell_status_time := none,
                 last_control_status_time := none }))
    else
      some (stop_channels (stop_listening c))

/-- C6: cleanup for a restart clears both per-channel status timestamps,
stops listening and closes channels while the client object is retained;
cleanup for a shutdown stops listening and closes channels while both
timestamps keep their previous values. -/
theorem cleanup_resources_timestamp_policy (c : KernelClientState) :
    (∃ d, cleanup_resources (some c) true = some d
        ∧ d.last_shell_status_time = none
        ∧ d.last_control_status_time = none
        ∧ d.listening = false
        ∧ d.channels_open = false)
    ∧ (∃ d, cleanup_resources (some c) false = some d
        ∧ d.last_shell_status_time = c.last_shell_status_time
        ∧ d.last_control_status_time = c.last_control_status_time
        ∧ d.listening = false
        ∧ d.channels_open = false) := by
  refine ⟨⟨_, rfl, rfl, rfl, rfl, rfl⟩, ⟨_, rfl, rfl, rfl, rfl, rfl⟩⟩

/-- An inbound gateway message as the already-deserialized dict the gateway
channel queue yields: the header message id, the optional parent header id
and execution-state content fields, and whether the message is malformed so
that processing it raises. -/
structure GwMessage where
  msgId : String
  parent_msg_id : Option String
  execution_state : Option String
  malformed : Bool
deriving DecidableEq, Repr

/-- One observable event of the channel while it is alive: a message handed
over by channel.get_msg, or the asyncio.TimeoutError that signals that no
message is available yet. -/
inductive GwEvent where
  | msg (m : GwMessage)
  | timeout
deriving DecidableEq, Repr

/-- Modelled from the spec: the external message codec session.serialize;
it returns the framed parts, delimiter and signature first and the four
message parts after them, and raises for a malformed message. -/
def sessionSerialize (m : GwMessage) : Except String (List String) :=
  if m.malformed then Except.error "serialize failed"
  else Except.ok ["IDS-MSG-delimiter", "signature",
    String.append "header-" m.msgId, "parent-header", "metadata", "content"]

/-- Observable state of one monitor loop: messages routed to listeners in
order, recorded execution-state updates, the error counter of the source,
the debug-logged errors, and the pauses slept, in units of 10 milliseconds,
so the 0.01 second poll pause is 1 and the 10 second error pause is 1000. -/
structure MonitorState where
  delivered : List (List String)
  execution_updates : List (String × String)
  error_count : Nat
  logged_errors : List String
  pauses : List Nat
deriving DecidableEq, Repr

/-- Modelled from the spec: _update_execution_state_from_status (client.py
is not among the sources); a status message with a parent id and an
execution state records the pair, other messages leave the map alone. -/
def update_execution_state (st : MonitorState) (m : GwMessage) : MonitorState :=
  match m.parent_msg_id, m.execution_state with
  | some pid, some es =>
      { st with execution_updates := st.execution_updates ++ [(pid, es)] }
  | _, _ => st

/-- Embedding of one iteration of
GatewayKernelClient._monitor_channel_messages: a timeout sleeps 0.01 and
continues; a message is first fed to the execution-state update, then
serialized; a short serialization logs a warning and continues; otherwise
the parts after delimiter and signature go to the listeners and the error
counter resets; an exception is debug-logged while error_count is below 10,
after which the source line error_count=+1 assigns the constant 1, and the
loop sleeps 10 seconds and continues. -/
def monitorStep (st : MonitorState) (ev : GwEvent) : MonitorState :=
  match ev with
  | GwEvent.timeout => { st with pauses := st.pauses ++ [1] }
  | GwEvent.msg m =>
    let st1 := update_execution_state st m
    match sessionSerialize m with
    | Except.error e =>
      let st2 :=
        if st1.error_count < 10 then
          { st1 with logged_errors := st1.logged_errors ++ [e], error_count := 1 }
        else st1
      { st2 with pauses := st2.pauses ++ [1000] }
    | Except.ok serialized =>
      if 6 ≤ serialized.length then
        { st1 with delivered := st1.delivered ++ [serialized.drop 2],
                   error_count := 0 }
      else st1

/-- Embedding of the _monitor_channel_messages loop over the finite trace of
events the channel produces while it is alive. -/
def monitor_channel_messages (events : List GwEvent) : MonitorState :=
  events.foldl monitorStep ⟨[], [], 0, [], []⟩

/-- A well-formed status message used in the C2 scenario. -/
def goodMsg (i : Nat) : GwMessage :=
  ⟨toString i, some (toString i), some "idle", false⟩

/-- The malformed message of the C2 scenario: processing it raises. -/
def badMsg : GwMessage := ⟨"bad", none, none, true⟩

/-- The frames a well-formed scenario message delivers to listeners:
serialize output with delimiter and signature dropped. -/
def goodFrames (i : Nat) : List String :=
  [String.append "header-" (toString i), "parent-header", "metadata", "content"]

/-- The C2 event trace: three well-formed messages, one malformed message,
two more well-formed messages. -/
def scenarioEvents : List GwEvent :=
  [GwEvent.msg (goodMsg 1), GwEvent.msg (goodMsg 2), GwEvent.msg (goodMsg 3),
   GwEvent.msg badMsg, GwEvent.msg (goodMsg 4), GwEvent.msg (goodMsg 5)]

/-- C2 as stated is false on the code: the pause applied after a processing
error never escalates from near-zero: already the first error sleeps the
full 10 second ceiling (1000 in 10 millisecond units) and every further
error sleeps exactly the same, while the near-zero 0.01 pause occurs only
for an empty poll, not for an error. -/
theorem monitor_error_pause_constant :
    (monitor_channel_messages [GwEvent.msg badMsg, GwEvent.msg badMsg]).pauses
        = [1000, 1000]
    ∧ (monitor_channel_messages [GwEvent.timeout]).pauses = [1]
    ∧ ((monitor_channel_messages
        [GwEvent.msg badMsg, GwEvent.msg badMsg]).pauses.head? = some 1000) := by
  refine ⟨rfl, rfl, rfl⟩

/-- C2 amended: on a message whose processing raises, the monitor logs the
error (the error counter stays below 10, so logging always fires), applies
the fixed bounded 10 second pause, delivers nothing for that message and
continues; and the scenario of three well-formed messages, one malformed
message and two more well-formed messages delivers exactly the five
well-formed messages to listeners in order, so the loop does not terminate
at the malformed one. -/
theorem monitor_survives_malformed_message :
    (∀ (st : MonitorState) (m : GwMessage), m.malformed = true →
        st.error_count < 10 →
        (monitorStep st (GwEvent.msg m)).delivered
            = (update_execution_state st m).delivered
        ∧ (monitorStep st (GwEvent.msg m)).pauses
            = (update_execution_state st m).pauses ++ [1000]
        ∧ (monitorStep st (GwEvent.msg m)).logged_errors
            = (update_execution_state st m).logged_errors ++ ["serialize failed"])
    ∧ (monitor_channel_messages scenarioEvents).delivered
        = [goodFrames 1, goodFrames 2, goodFrames 3, goodFrames 4, goodFrames 5] := by
  constructor
  · intro st m hm hc
    have hser : sessionSerialize m = Except.error "serialize failed" := by
      unfold sessionSerialize
      rw [hm]
      rfl
    have hc1 : (update_execution_state st m).error_count = st.error_count := by
      unfold update_execution_state
      cases hp : m.parent_msg_id <;> cases he : m.execution_state <;> rfl
    have hstep : monitorStep st (GwEvent.msg m)
        = { update_execution_state st m with
            logged_errors :=
              (update_execution_state st m).logged_errors ++ ["serialize failed"],
            error_count := 1,
            pauses := (update_execution_state st m).pauses ++ [1000] } := by
      simp only [monitorStep, hser]
      rw [hc1, if_pos hc]
    rw [hstep]
    exact ⟨rfl, rfl, rfl⟩
  · rfl

theorem monitor_survives_malformed_message_witness :
    badMsg.malformed = true
    ∧ (0 : Nat) < 10
    ∧ (monitorStep ⟨[], [], 0, [], []⟩ (GwEvent.msg badMsg)).pauses = [1000]
    ∧ (monitorStep ⟨[], [], 0, [], []⟩ (GwEvent.msg badMsg)).logged_errors
        = ["serialize failed"] := by
  refine ⟨rfl, by decide, ?_, ?_⟩
  · have h := (monitor_survives_malformed_message).1 ⟨[], [], 0, [], []⟩ badMsg rfl
      (by decide)
    simpa using h.2.1
  · have h := (monitor_survives_malformed_message).1 ⟨[], [], 0, [], []⟩ badMsg rfl
      (by decide)
    simpa using h.2.2

lemma getD_append_left {α : Type} (l l2 : List α) (d : α) (n : Nat)
    (h : n < l.length) : (l ++ l2).getD n d = l.getD n d := by
  induction l generalizing n with
  | nil => cases h
  | cons a t ih =>
    cases n with
    | zero => rfl
    | succ k => exact ih k (Nat.lt_of_succ_lt_succ h)

lemma getD_set_ne {α : Type} (l : List α) (i j : Nat) (a d : α)
    (h : i ≠ j) : (l.set i a).getD j d = l.getD j d := by
  induction l generalizing i j with
  | nil => rfl
  | cons b t ih =>
    cases i with
    | zero =>
      cases j with
      | zero => exact absurd rfl h
      | succ k => rfl
    | succ i2 =>
      cases j with
      | zero => rfl
      | succ k => exact ih i2 k (fun he => h (by rw [he]))

/-- A dictionary object: string keys to opaque string values. -/
abbrev PyDict := List (String × String)

/-- Upsert of one key of a dict, the Python assignment info of k is v. -/
def dictSet (d : PyDict) (k v : String) : PyDict :=
  if d.any (fun e => e.1 == k) then
    d.map (fun e => if e.1 == k then (k, v) else e)
  else d ++ [(k, v)]

/-- Lookup of one key of a dict. -/
def dictGet (d : PyDict) (k : String) : Option String :=
  (d.find? (fun e => e.1 == k)).map Prod.snd

/-- A minimal store of dict objects so that aliasing is observable: the
address of a dict is its index in the store. -/
structure Heap where
  dicts : List PyDict

def Heap.size (h : Heap) : Nat := h.dicts.length

/-- Read of the dict stored at an address. -/
def Heap.get (h : Heap) (r : Nat) : PyDict := h.dicts.getD r []

/-- Allocation of a fresh dict object, as a dict literal or dict.copy()
produces: the new object lives at a previously unused address. -/
def Heap.alloc (h : Heap) (d : PyDict) : Heap × Nat :=
  (⟨h.dicts ++ [d]⟩, h.dicts.length)

/-- In-place mutation of the dict stored at an address. -/
def Heap.setKey (h : Heap) (r : Nat) (k v : String) : Heap :=
  ⟨h.dicts.set r (dictSet (h.get r) k v)⟩

/-- The provisioner collaborator as the manager sees it: the optional
address of its stored connection_info dict (absent when the attribute is
missing or the value is falsy none). -/
structure ProvisionerObj where
  connection_info : Option Nat

/-- Fields of ProvisionerAwareKernelManager that the fallback branch of
get_connection_info reads, with port numbers carried as opaque values. -/
structure PAKernelManager where
  provisioner : Option ProvisionerObj
  shell_port : String
  iopub_port : String
  stdin_port : String
  control_port : String
  hb_port : String
  ip : String
  transport : String
  signature_scheme : String
  session_key : String

/-- The fallback dict built from the manager-held transport fields in the
source lines 170-179. -/
def kmInfo (m : PAKernelManager) : PyDict :=
  [("shell_port", m.shell_port), ("iopub_port", m.iopub_port),
   ("stdin_port", m.stdin_port), ("control_port", m.control_port),
   ("hb_port", m.hb_port), ("ip", m.ip), ("transport", m.transport),
   ("signature_scheme", m.signature_scheme)]

/-- Embedding of ProvisionerAwareKernelManager.get_connection_info over the
dict store: when the provisioner exposes a non-empty connection_info the
result is a fresh copy of that dict, otherwise a fresh dict built from the
manager fields (both source branches create a new dict object); with
session true the session key is then set on the returned dict. The result
is the new store and the address of the returned dict. -/
def get_connection_info (h : Heap) (m : PAKernelManager) (session : Bool) :
    Heap × Nat :=
  let src :=
    match m.provisioner with
    | some prov =>
      match prov.connection_info with
      | some cr => if (h.get cr).isEmpty then kmInfo m else h.get cr
      | none => kmInfo m
    | none => kmInfo m
  let alloced := h.alloc src
  if session then
    (alloced.1.setKey alloced.2 "key" m.session_key, alloced.2)
  else alloced

lemma alloc_ref_eq_size (h : Heap) (d : PyDict) : (h.alloc d).2 = h.size := rfl

lemma alloc_get_old (h : Heap) (d : PyDict) (r0 : Nat) (hr0 : r0 < h.size) :
    (h.alloc d).1.get r0 = h.get r0 :=
  getD_append_left h.dicts [d] [] r0 hr0

lemma setKey_get_other (h : Heap) (r r0 : Nat) (k v : String) (hne : r ≠ r0) :
    (h.setKey r k v).get r0 = h.get r0 :=
  getD_set_ne h.dicts r r0 (dictSet (h.get r) k v) [] hne

lemma get_connection_info_ref (h : Heap) (m : PAKernelManager) (session : Bool) :
    (get_connection_info h m session).2 = h.size := by
  cases session <;> rfl

/-- C10: get_connection_info returns a fresh dict: its address is new, every
previously stored dict, the stored provisioner connection_info included, is
unchanged by the call (so adding the session key inside the call touched
only the fresh copy), and any later mutation of the returned dict leaves
every previously stored dict unchanged as well; the manager fields are
untouched since the call threads no manager state. -/
theorem get_connection_info_fresh_copy (h : Heap) (m : PAKernelManager)
    (session : Bool) (r0 : Nat) (hr0 : r0 < h.size) :
    (get_connection_info h m session).2 = h.size
    ∧ (get_connection_info h m session).1.get r0 = h.get r0
    ∧ (∀ k v, ((get_connection_info h m session).1.setKey
          (get_connection_info h m session).2 k v).get r0 = h.get r0) := by
  have href := get_connection_info_ref h m session
  have hsne : h.size ≠ r0 := fun he => absurd (he ▸ hr0) (Nat.lt_irrefl r0)
  have hne : (get_connection_info h m session).2 ≠ r0 := by
    rw [href]; exact hsne
  have hget : (get_connection_info h m session).1.get r0 = h.get r0 := by
    cases session with
    | false => exact alloc_get_old h _ r0 hr0
    | true =>
      show ((h.alloc _).1.setKey (h.alloc _).2 "key" m.session_key).get r0
          = h.get r0
      rw [alloc_ref_eq_size, setKey_get_other _ _ _ _ _ hsne]
      exact alloc_get_old h _ r0 hr0
  refine ⟨href, hget, ?_⟩
  intro k v
  rw [setKey_get_other _ _ _ _ _ hne, hget]

/-- Concrete store for the C10 witness: the provisioner connection_info dict
lives at address 0. -/
def c10Heap : Heap := ⟨[[("ws_url", "wss-endpoint")]]⟩

def c10Manager : PAKernelManager :=
  ⟨some ⟨some 0⟩, "1", "2", "3", "4", "5", "host", "tcp", "hmac", "secret"⟩

theorem get_connection_info_fresh_copy_witness :
    (0 : Nat) < c10Heap.size
    ∧ (get_connection_info c10Heap c10Manager true).1.get 0 = c10Heap.get 0
    ∧ ((get_connection_info c10Heap c10Manager true).1.setKey
        (get_connection_info c10Heap c10Manager true).2 "x" "y").get 0
        = c10Heap.get 0 := by
  refine ⟨by decide, ?_, ?_⟩
  · exact (get_connection_info_fresh_copy c10Heap c10Manager true 0 (by decide)).2.1
  · exact (get_connection_info_fresh_copy c10Heap c10Manager true 0 (by decide)).2.2 "x" "y"
